import Mathlib

/-!
Verification of the Sensapex uMp Python wrapper (`sensapex.py`) against its
natural-language specification.

The wrapper drives an opaque C transport library (`libump`).  We embed the
Python control logic shallowly:

* The transport adapter is modelled by a *script*: a list of `ScriptEntry`
  records, one per transport invocation, giving the return value of the C
  call, the library's last-error and OS-errno registers at that moment, the
  `last_device_received` field, and the five position integers the library
  writes into the caller-supplied out-parameters.  Each transport invocation
  consumes exactly one script entry, so "number of adapter calls" is the
  number of entries consumed.
* Mutable session attributes (`self.h`, `self._timeout`, `self._axis_counts`,
  the poller flags) become a `SessionState` record threaded explicitly.
* Python exceptions become `Except PyExc`; falling off the end of the script
  while a loop still wants to run is modelled by `Option.none` (the loop
  would keep going).
* The adapter's `ump_errorstr` and `os.strerror` string tables are opaque
  external functions; they are passed in as parameters `estr` and `serr`.
-/

namespace Sensapex

/-- Exceptions raised by the wrapper: `TypeError` (used by `UMP.call` for a
closed session), `UMPError(msg, errno, oserrno)` (errno is `None` for
OS-level errors, the OS errno is `None` for device errors), and Python's
`UnboundLocalError` (reading a local variable that was never assigned). -/
inductive PyExc where
  | typeError (msg : String)
  | umpError (msg : String) (errno : Option Int) (oserrno : Option Int)
  | unboundLocalError
deriving DecidableEq, Repr

/-- One transport-adapter interaction: the integer returned by the C call,
the library's `ump_last_error` and `ump_last_os_errno` registers, the
`last_device_received` field of the shared state (an `Option` because the
Python code defensively checks it against `None`), and the five position
integers (`x, y, z, w, e`) the library writes for a `ump_get_positions_ext`
call (for a zero timeout these come from the library's cached snapshot). -/
structure ScriptEntry where
  rval : Int
  lastError : Int
  osErrno : Int
  lastDevRecv : Option Int
  px : Int
  py : Int
  pz : Int
  pw : Int
  pe : Int
deriving DecidableEq, Repr

/-- The transport adapter, modelled as the sequence of results of its
successive invocations. -/
abbrev Script := List ScriptEntry

/-- Mutable attributes of a `UMP` session object: the handle (`self.h`,
`none` once closed), the stored default timeout (`self._timeout`), the
per-device axis-count cache (`self._axis_counts`, an association list with
most-recent binding first), whether the loaded library has
`ump_get_axis_count_ext` (`self._ump_has_axis_count`), and the poller's
liveness and stop flags. -/
structure SessionState where
  h : Option Unit
  timeout : Int
  axisCounts : List (Int × Int)
  hasAxisCount : Bool
  pollerAlive : Bool
  pollerStop : Bool
deriving DecidableEq, Repr

/-- `UMP.call(fn, *args)`: the single choke point for transport requests.
Raises `TypeError("UMP is not open.")` when `self.h is None`; otherwise runs
the C function (whose result is `e.rval`).  On a negative return value it
reads `ump_last_error`: code `-1` becomes an OS-level `UMPError` built from
`ump_last_os_errno` (with `errno = None`), any other code becomes a
`UMPError` whose message carries the code, the adapter's error string and
the failing call's name and arguments (with `oserrno = None`).  Nonnegative
return values are returned unchanged. -/
def call (estr serr : Int → String) (st : SessionState) (e : ScriptEntry)
    (fn : String) (args : List Int) : Except PyExc Int :=
  match st.h with
  | none => .error (.typeError "UMP is not open.")
  | some _ =>
    if e.rval < 0 then
      if e.lastError = -1 then
        .error (.umpError ("UMP OS Error " ++ toString e.osErrno ++ ": " ++ serr e.osErrno)
          none (some e.osErrno))
      else
        .error (.umpError ("UMP Error " ++ toString e.lastError ++ ": " ++ estr e.lastError
          ++ "  From " ++ fn ++ toString args) (some e.lastError) none)
    else
      .ok e.rval

/-- `UMP.set_timeout(timeout)`: assigns `self._timeout` first and then calls
`ump_set_timeout` through `UMP.call`; the assignment survives even when the
transport call raises. -/
def set_timeout (estr serr : Int → String) (t : Int) (st : SessionState) (e : ScriptEntry) :
    Except PyExc Unit × SessionState :=
  let st1 := { st with timeout := t }
  match call estr serr st1 e "ump_set_timeout" [t] with
  | .error ex => (.error ex, st1)
  | .ok _ => (.ok (), st1)

/-- `UMP.recv()`: one `ump_receive` drain with a zero wait budget; a zero
packet count is turned into a `UMPError` with errno `-3` (`LIBUMP_TIMEOUT`)
and message `ump_errorstr(-3)`; otherwise the `last_device_received` field
of the shared state is returned. -/
def recv (estr serr : Int → String) (st : SessionState) (e : ScriptEntry) :
    Except PyExc (Option Int) :=
  match call estr serr st e "ump_receive" [0] with
  | .error ex => .error ex
  | .ok count =>
    if count = 0 then
      .error (.umpError (estr (-3)) (some (-3)) none)
    else
      .ok e.lastDevRecv

/-- The guard `d is None or d > 0` used by `UMP.recv_all` before adding a
received device ID to its result set. -/
def addCond : Option Int → Bool
  | none => true
  | some k => decide (0 < k)

/-- The `while True` loop of `UMP.recv_all`, faithful to the source: each
iteration calls `recv`; a `UMPError` with errno `-3` breaks the loop; any
other `UMPError` is caught but NOT re-raised (the `if` in the `except`
clause has no `else`), so control falls through to the membership test with
`d` still holding its value from the previous iteration — or unbound, which
Python reports as `UnboundLocalError`.  `dBind` is the binding state of the
local `d`; `devs` is the accumulated set. -/
def recvAllLoop (estr serr : Int → String) (st : SessionState) :
    Option (Option Int) → Finset (Option Int) → Script →
    Option (Except PyExc (Finset (Option Int)) × Script)
  | _, _, [] => none
  | dBind, devs, e :: rest =>
    match recv estr serr st e with
    | .ok d =>
        recvAllLoop estr serr st (some d) (if addCond d then insert d devs else devs) rest
    | .error (.umpError _ errno _) =>
        if errno = some (-3) then
          some (.ok devs, rest)
        else
          match dBind with
          | none => some (.error .unboundLocalError, rest)
          | some d =>
              recvAllLoop estr serr st (some d) (if addCond d then insert d devs else devs) rest
    | .error ex => some (.error ex, rest)

/-- `UMP.recv_all()`: records the old timeout, lowers the timeout to 0 (this
`set_timeout` call sits *before* the `try`), runs the receive loop, and in
the `finally` restores the old timeout.  The result is the set of collected
device IDs (Python returns `list(devs)`; we keep the set).  An exception
raised by the restoring `set_timeout` replaces the body's outcome, exactly
as in Python. -/
def recv_all (estr serr : Int → String) (st : SessionState) :
    Script → Option (Except PyExc (Finset (Option Int)) × SessionState × Script)
  | [] => none
  | e :: rest =>
    let old := st.timeout
    match set_timeout estr serr 0 st e with
    | (.error ex, st1) => some (.error ex, st1, rest)
    | (.ok _, st1) =>
      match recvAllLoop estr serr st1 none ∅ rest with
      | none => none
      | some (res, rest2) =>
        match rest2 with
        | [] => none
        | e2 :: rest3 =>
          match set_timeout estr serr old st1 e2 with
          | (.error ex2, st2) => some (.error ex2, st2, rest3)
          | (.ok _, st2) => some (res, st2, rest3)

/-- `UMP.axis_count(dev)`: when the library lacks `ump_get_axis_count_ext`
the fixed default 4 is returned immediately (before the cache is even
consulted); otherwise a cached value is returned without any transport
call, and on a cache miss one `ump_get_axis_count_ext` call is made and its
result cached. -/
def axis_count (estr serr : Int → String) (st : SessionState) (dev : Int) :
    Script → Option (Except PyExc Int × SessionState × Script) :=
  fun script =>
    if st.hasAxisCount = false then
      some (.ok 4, st, script)
    else
      match st.axisCounts.lookup dev with
      | some c => some (.ok c, st, script)
      | none =>
        match script with
        | [] => none
        | e :: rest =>
          match call estr serr st e "ump_get_axis_count_ext" [dev] with
          | .error ex => some (.error ex, st, rest)
          | .ok c => some (.ok c, { st with axisCounts := (dev, c) :: st.axisCounts }, rest)

/-- `UMP.get_pos(dev, timeout=0)`: a `None` timeout is replaced by the
session default; `ump_get_positions_ext` is then invoked unconditionally
(also for `timeout == 0`, where the library serves its cached snapshot),
the five out-parameters are read back, and the list is trimmed to the
device's axis count.  `timeout = none` models Python `None`; the Python
default argument is `some 0`. -/
def get_pos (estr serr : Int → String) (st : SessionState) (dev : Int) (timeout : Option Int) :
    Script → Option (Except PyExc (List Int) × SessionState × Script)
  | [] => none
  | e :: rest =>
    let t := timeout.getD st.timeout
    match call estr serr st e "ump_get_positions_ext" [dev, t] with
    | .error ex => some (.error ex, st, rest)
    | .ok _ =>
      match axis_count estr serr st dev rest with
      | none => none
      | some (.error ex, st1, rest1) => some (.error ex, st1, rest1)
      | some (.ok n, st1, rest1) =>
          some (.ok (([e.px, e.py, e.pz, e.pw, e.pe].take n.toNat)), st1, rest1)

/-- Device IDs `0 .. n-1`, the Python `range`. -/
def intRange (n : Nat) : List Int :=
  (List.range n).map fun k => (k : Int)

/-- The probe loop of `UMP.list_devices`: each candidate ID is probed with
`get_pos(i)` (Python default timeout argument, i.e. 0); a `UMPError` whose
errno is `-5` or `-6` means "device does not exist" and the ID is skipped;
any other error is re-raised. -/
def listDevicesLoop (estr serr : Int → String) :
    SessionState → List Int → List Int → Script →
    Option (Except PyExc (List Int) × SessionState × Script)
  | st, [], acc, script => some (.ok acc, st, script)
  | st, i :: is, acc, script =>
    match get_pos estr serr st i (some 0) script with
    | none => none
    | some (.ok _, st1, rest) => listDevicesLoop estr serr st1 is (acc ++ [i]) rest
    | some (.error (.umpError msg errno os), st1, rest) =>
        if errno = some (-5) ∨ errno = some (-6) then
          listDevicesLoop estr serr st1 is acc rest
        else
          some (.error (.umpError msg errno os), st1, rest)
    | some (.error ex, st1, rest) => some (.error ex, st1, rest)

/-- `UMP.list_devices(max_id=20)`: records the old timeout, lowers it to 20
(again *before* the `try`), probes IDs `0 .. min(max_id, 254) - 1`, and
restores the old timeout in the `finally`. -/
def list_devices (estr serr : Int → String) (st : SessionState) (maxId : Int) :
    Script → Option (Except PyExc (List Int) × SessionState × Script)
  | [] => none
  | e :: rest =>
    let old := st.timeout
    match set_timeout estr serr 20 st e with
    | (.error ex, st1) => some (.error ex, st1, rest)
    | (.ok _, st1) =>
      match listDevicesLoop estr serr st1 (intRange (min maxId 254).toNat) [] rest with
      | none => none
      | some (res, st2, rest2) =>
        match rest2 with
        | [] => none
        | e2 :: rest3 =>
          match set_timeout estr serr old st2 e2 with
          | (.error ex2, st3) => some (.error ex2, st3, rest3)
          | (.ok _, st3) => some (res, st3, rest3)

/-- `UMP.close()`: when the poller thread is alive its one-shot stop flag is
raised and the thread is joined (after which it is no longer alive); then
`ump_close(self.h)` is invoked directly on the library — bypassing
`UMP.call`, so no exception can be raised even when `self.h` is already
`None` — and the handle is cleared.  The second component records the
handle value passed to `ump_close`. -/
def close (st : SessionState) : SessionState × Option Unit :=
  let st1 :=
    if st.pollerAlive then
      { st with pollerStop := true, pollerAlive := false }
    else
      st
  ({ st1 with h := none }, st.h)

/-- `SensapexDevice.__init__(devid, callback, n_axes)` restricted to its
axis-count effect: a non-`None` `n_axes` override is written straight into
the session's shared `_axis_counts` cache (observer registration on the
poller is modelled separately). -/
def deviceInitAxisOverride (st : SessionState) (devid : Int) (nAxes : Option Int) : SessionState :=
  match nAxes with
  | none => st
  | some n => { st with axisCounts := (devid, n) :: st.axisCounts }

/-! ## Motion planner (`UMP.goto_pos`)

The speed-synthesis block of `goto_pos` works on Python floats; we embed it
over the reals.  `pos` is first padded with zeros to at least four entries,
the displacement is the elementwise difference of the padded target and the
current position (`zip` truncates to the shorter list, i.e. to the axes the
device actually reported), the distance is `max(1, numpy.linalg.norm(diff))`
and the per-axis speeds are `max(32, speed * abs(d / dist))` — where `speed`
was already coerced to `max(1, speed)` a few lines earlier — padded with
zeros to four entries. -/

noncomputable section

/-- `list(xs) + [0] * (4 - len(xs))`. -/
def padTo4R (xs : List ℝ) : List ℝ :=
  xs ++ List.replicate (4 - xs.length) 0

/-- `diff = [float(p - c) for p, c in zip(pos, current_pos)]` with `pos`
already zero-padded to four entries. -/
def gotoDiff (pos cur : List ℝ) : List ℝ :=
  (padTo4R pos).zipWith (fun p c => p - c) cur

/-- `dist = max(1, np.linalg.norm(diff))`. -/
def gotoDist (diff : List ℝ) : ℝ :=
  max 1 (Real.sqrt ((diff.map fun d => d ^ 2).sum))

/-- `speed = [max(32, speed * abs(d / dist)) for d in diff]` zero-padded to
four entries, with `speed` previously reassigned to `max(1, speed)`. -/
def gotoSpeeds (pos cur : List ℝ) (s : ℝ) : List ℝ :=
  let diff := gotoDiff pos cur
  let dist := gotoDist diff
  padTo4R (diff.map fun d => max 32 (max 1 s * |d / dist|))

/-- The speed vector as the specification words it: for each axis present,
`speed[i] = max(32, s * |diff[i]| / dist)` with the nominal speed `s` used
as given, zero-padded to 4 axes.  This is the comparand for the refinement
claim; `gotoSpeeds` above is the translation of the source. -/
def specGotoSpeeds (pos cur : List ℝ) (s : ℝ) : List ℝ :=
  let diff := gotoDiff pos cur
  let dist := gotoDist diff
  padTo4R (diff.map fun d => max 32 (s * |d| / dist))

end

/-! ## Poller (`PollThread.run`)

One loop iteration: drain pending packets, snapshot the callback table, and
for every device with registered callbacks fetch the position
(`get_pos(dev_id, timeout=20)`, i.e. the freshly refreshed cache — modelled
here as a function from device ID to position), compare it with
`last_pos.get(dev_id)` and, if different, invoke every callback with
`(dev_id, new_pos, old_pos)`.  The source never writes to `last_pos`: the
dictionary is created empty before the loop, read in every iteration, and
never updated. -/

/-- One observer invocation `cb(dev_id, new_pos, old_pos)` made by the
poller; callbacks are identified by an opaque name. -/
structure PollCall where
  cb : String
  dev : Int
  newPos : List Int
  oldPos : Option (List Int)
deriving DecidableEq, Repr

/-- The per-device dispatch loop of one poller iteration.  `getPos dev` is
the position `ump.get_pos(dev, timeout=20)` returns during this iteration;
`last` is the `last_pos` dictionary; `cbs` is the snapshot of the callback
table.  (The source's `if len(callbacks) == 0: continue` tests the whole
snapshot dictionary, which is necessarily nonempty inside the loop, so it
never skips anything.) -/
def pollIterDevices (getPos : Int → List Int) (last : List (Int × List Int)) :
    List (Int × List String) → List PollCall
  | [] => []
  | (dev, cbs) :: restCbs =>
    let newPos := getPos dev
    let oldPos := last.lookup dev
    (if some newPos ≠ oldPos then cbs.map fun c => ⟨c, dev, newPos, oldPos⟩ else [])
      ++ pollIterDevices getPos last restCbs

/-- Successive poller iterations (`iters` gives the cached positions each
iteration observes).  Faithful to the source, `last_pos` starts empty and —
since `run` contains no assignment to it — is passed along unchanged. -/
def pollRunAux (callbacks : List (Int × List String)) (last : List (Int × List Int)) :
    List (Int → List Int) → List PollCall
  | [] => []
  | g :: gs => pollIterDevices g last callbacks ++ pollRunAux callbacks last gs

/-- All observer invocations made over a whole run of the poller loop. -/
def pollRun (callbacks : List (Int × List String)) (iters : List (Int → List Int)) :
    List PollCall :=
  pollRunAux callbacks [] iters

/-! ## Fixtures for concrete runs -/

/-- A concrete stand-in for the adapter's `ump_errorstr` table. -/
def estrFix : Int → String := fun c => "E" ++ toString c

/-- A concrete stand-in for `os.strerror`. -/
def serrFix : Int → String := fun c => "S" ++ toString c

/-- An open session with default timeout 200 and an empty axis cache, on a
library that supports axis-count queries, with the poller running. -/
def openSt : SessionState := ⟨some (), 200, [], true, true, false⟩

/-- An open session whose axis cache already holds 3 axes for device 1. -/
def cachedSt : SessionState := ⟨some (), 200, [(1, 3)], true, true, false⟩

/-- An open session on a library that lacks `ump_get_axis_count_ext`. -/
def noAxisSt : SessionState := ⟨some (), 200, [], false, false, false⟩

/-- A closed session (handle already `None`). -/
def closedSt : SessionState := ⟨none, 200, [], true, false, false⟩

/-- Script entry for a successful call returning 0. -/
def okEntry : ScriptEntry := ⟨0, 0, 0, none, 0, 0, 0, 0, 0⟩

/-- Script entry for one pending packet from device `d`. -/
def pktE (d : Int) : ScriptEntry := ⟨1, 0, 0, some d, 0, 0, 0, 0, 0⟩

/-- Script entry for an `ump_receive` that finds nothing pending (count 0,
which `UMP.recv` converts into the timeout error `-3`). -/
def toutE : ScriptEntry := ⟨0, 0, 0, none, 0, 0, 0, 0, 0⟩

/-- Script entry for a failing call whose `ump_last_error` is `code`. -/
def errEntry (code : Int) : ScriptEntry := ⟨-1, code, 0, none, 0, 0, 0, 0, 0⟩

/-- Script entry for a failing call with an OS-level error (`ump_last_error`
is `-1`) and OS errno 7. -/
def osErrEntry : ScriptEntry := ⟨-1, -1, 7, none, 0, 0, 0, 0, 0⟩

/-- Script entry for a successful `ump_get_positions_ext` whose out
parameters read 10, 20, 30, 40, 50. -/
def posEntry : ScriptEntry := ⟨0, 0, 0, none, 10, 20, 30, 40, 50⟩

/-- Number of transport-adapter invocations an operation consumed, read off
the script before and after the operation. -/
def callsUsed (before after : Script) : Nat := before.length - after.length

/-- Cached positions the poller observes on its first example iteration:
device 1 at `[0,0,0]`, every other device at `[7,7,7]`. -/
def pollPos1 : Int → List Int := fun d => if d = 1 then [0, 0, 0] else [7, 7, 7]

/-- Cached positions on the second example iteration: device 1 has moved to
`[0,0,5]`, every other device is unchanged. -/
def pollPos2 : Int → List Int := fun d => if d = 1 then [0, 0, 5] else [7, 7, 7]

/-! ## Motion-planner lemmas -/

/-- A single displacement component is bounded by the distance floor
`max 1 (euclidean norm)`. -/
lemma abs_le_gotoDist {diff : List ℝ} {d : ℝ} (hd : d ∈ diff) : |d| ≤ gotoDist diff := by
  have h1 : d ^ 2 ∈ diff.map fun x => x ^ 2 := List.mem_map_of_mem _ hd
  have h2 : d ^ 2 ≤ (diff.map fun x => x ^ 2).sum := by
    refine List.single_le_sum (fun x hx => ?_) _ h1
    rcases List.mem_map.1 hx with ⟨y, _, rfl⟩
    positivity
  have h3 : |d| ≤ Real.sqrt ((diff.map fun x => x ^ 2).sum) := by
    rw [← Real.sqrt_sq_eq_abs]
    exact Real.sqrt_le_sqrt h2
  exact h3.trans (le_max_right _ _)

/-- For components no larger than the distance, the source expression
`max(32, max(1, s) * abs(d / dist))` and the specification expression
`max(32, s * abs(d) / dist)` coincide: when `s < 1` both branches are
dominated by the floor 32, and otherwise the two coefficients agree. -/
lemma speed_entry_eq {s d dist : ℝ} (h1 : (1:ℝ) ≤ dist) (h2 : |d| ≤ dist) :
    max 32 (max 1 s * |d / dist|) = max 32 (s * |d| / dist) := by
  have hpos : (0:ℝ) < dist := lt_of_lt_of_le one_pos h1
  rw [abs_div, abs_of_pos hpos]
  have hq0 : 0 ≤ |d| / dist := div_nonneg (abs_nonneg d) hpos.le
  have hq1 : |d| / dist ≤ 1 := (div_le_one hpos).mpr h2
  rcases le_total 1 s with hs | hs
  · rw [max_eq_right hs, mul_div_assoc]
  · rw [max_eq_left hs, one_mul, mul_div_assoc]
    rw [max_eq_left (by linarith), max_eq_left ?_]
    nlinarith [mul_nonneg (by linarith : (0:ℝ) ≤ 1 - s) hq0]

/-- The speed vector synthesized by the source equals the vector prescribed
by the specification formula. -/
lemma gotoSpeeds_eq_spec (pos cur : List ℝ) (s : ℝ) :
    gotoSpeeds pos cur s = specGotoSpeeds pos cur s := by
  simp only [gotoSpeeds, specGotoSpeeds]
  congr 1
  refine List.map_congr_left fun d hd => ?_
  exact speed_entry_eq (le_max_left _ _) (abs_le_gotoDist hd)

/-- Subtracting a list from itself (padding on the left operand only)
yields zeros on all common positions. -/
lemma zipWith_sub_append_self (xs ys : List ℝ) :
    List.zipWith (fun p c => p - c) (xs ++ ys) xs = List.replicate xs.length 0 := by
  induction xs with
  | nil => simp
  | cons x xs ih => simp [ih, List.replicate_succ]

/-- A null move has an all-zero displacement vector. -/
lemma gotoDiff_self (cur : List ℝ) : gotoDiff cur cur = List.replicate cur.length 0 := by
  rw [gotoDiff, padTo4R, zipWith_sub_append_self]

/-- The displacement of the example move `[0,0,0] → [100,0,0]`. -/
lemma gotoDiff_oneaxis : gotoDiff [100, 0, 0] [0, 0, 0] = [100, 0, 0] := by
  simp [gotoDiff, padTo4R]

/-- The distance of the example move `[0,0,0] → [100,0,0]`. -/
lemma gotoDist_oneaxis : gotoDist [100, 0, 0] = 100 := by
  unfold gotoDist
  have h1 : (([(100:ℝ), 0, 0].map fun d => d ^ 2).sum) = 100 ^ 2 := by norm_num
  rw [h1, Real.sqrt_sq (by norm_num)]
  norm_num

/-- The speed vector of the example move `[0,0,0] → [100,0,0]` at nominal
speed 10: the floor 32 applies on every axis the device reported, zeros pad
the absent fourth axis. -/
lemma gotoSpeeds_oneaxis : gotoSpeeds [100, 0, 0] [0, 0, 0] 10 = [32, 32, 32, 0] := by
  simp only [gotoSpeeds, gotoDiff_oneaxis, gotoDist_oneaxis]
  simp [padTo4R]
  norm_num

/-- C3, counterexample.  The claim predicts the per-axis speed vector
`[32, 0, 0, 0]` for the move `[0,0,0] → [100,0,0]` at nominal speed 10; the
source computes `max(32, ...)` for every reported axis, including the two
axes with zero displacement, so the vector is `[32, 32, 32, 0]` and the
claimed value is wrong at indices 1 and 2. -/
theorem planner_oneaxis_cex : gotoSpeeds [100, 0, 0] [0, 0, 0] 10 ≠ [32, 0, 0, 0] := by
  rw [gotoSpeeds_oneaxis]
  norm_num

/-- C3, amended.  For current `[0,0,0]`, target `[100,0,0]`, nominal speed
10, `goto_pos` derives `diff = [100,0,0]`, `dist = 100`, and the per-axis
speed vector `[32,32,32,0]` — the floor of 32 applies to every axis the
device reports, including those with zero displacement; only the padding
axis beyond the device's three axes gets 0. -/
theorem planner_oneaxis_amended :
    gotoDiff [100, 0, 0] [0, 0, 0] = [100, 0, 0]
    ∧ gotoDist (gotoDiff [100, 0, 0] [0, 0, 0]) = 100
    ∧ gotoSpeeds [100, 0, 0] [0, 0, 0] 10 = [32, 32, 32, 0] := by
  refine ⟨gotoDiff_oneaxis, ?_, gotoSpeeds_oneaxis⟩
  rw [gotoDiff_oneaxis, gotoDist_oneaxis]

/-- C4.  The per-axis speeds synthesized by `goto_pos` equal the literal
specification formula `speed[i] = max(32, s * |diff[i]| / dist)` with
`dist = max(1, euclideanNorm(diff))`, zero-padded to 4 axes (first
conjunct); an axis with zero displacement receives speed 32, not 0 (second
conjunct); and a null move yields speed 32 on every present axis, with only
the padding positions at 0 (third conjunct). -/
theorem goto_speed_synthesis (pos cur : List ℝ) (s : ℝ) :
    gotoSpeeds pos cur s = specGotoSpeeds pos cur s
    ∧ (∀ i : ℕ, (gotoDiff pos cur)[i]? = some 0 → (gotoSpeeds pos cur s)[i]? = some 32)
    ∧ gotoSpeeds cur cur s
        = List.replicate cur.length 32 ++ List.replicate (4 - cur.length) 0 := by
  refine ⟨gotoSpeeds_eq_spec pos cur s, fun i h => ?_, ?_⟩
  · have hi : i < (gotoDiff pos cur).length := by
      by_contra hle
      push_neg at hle
      rw [List.getElem?_eq_none hle] at h
      cases h
    simp only [gotoSpeeds]
    rw [padTo4R, List.getElem?_append_left (by simpa using hi), List.getElem?_map, h]
    simp
  · simp only [gotoSpeeds, gotoDiff_self, List.map_replicate]
    rw [padTo4R]
    have h32 : (32 : ℝ) ⊔ (1 ⊔ s) * |(0:ℝ) / gotoDist (List.replicate cur.length 0)| = 32 := by
      simp
    rw [h32, List.length_replicate]

/-- Witness for C4: on the move `[0,0,0] → [100,0,0]` at speed 10, axis 1
has zero displacement and the synthesized speed at index 1 is 32. -/
theorem goto_speed_synthesis_witness :
    (gotoSpeeds [100, 0, 0] [0, 0, 0] 10)[1]? = some 32 := by
  refine (goto_speed_synthesis [100, 0, 0] [0, 0, 0] 10).2.1 1 ?_
  rw [gotoDiff_oneaxis]
  rfl

/-! ## Session-layer lemmas and claims -/

/-- `set_timeout` always leaves the stored timeout at its argument, whether
or not the underlying transport call succeeded (the Python assignment
precedes the call). -/
lemma set_timeout_snd (estr serr : Int → String) (t : Int) (st : SessionState) (e : ScriptEntry) :
    (set_timeout estr serr t st e).2 = { st with timeout := t } := by
  simp only [set_timeout]
  rcases call estr serr { st with timeout := t } e "ump_set_timeout" [t] with ex | v <;> rfl

/-- C8.  `UMP.call` raises the not-open `TypeError` when the session has no
handle; on a negative transport return value it resolves the last-error
code and raises an OS-level `UMPError` (built from the OS errno, with no
device code) when that code is `-1`, or a device `UMPError` carrying the
numeric code, the adapter's error string and the failing call's name and
arguments for any other negative code; a nonnegative return value is
returned unchanged and nothing is raised. -/
theorem call_error_taxonomy (estr serr : Int → String) (st : SessionState) (e : ScriptEntry)
    (fn : String) (args : List Int) :
    (st.h = none → call estr serr st e fn args = .error (.typeError "UMP is not open."))
    ∧ (st.h = some () → e.rval < 0 → e.lastError = -1 →
        call estr serr st e fn args =
          .error (.umpError ("UMP OS Error " ++ toString e.osErrno ++ ": " ++ serr e.osErrno)
            none (some e.osErrno)))
    ∧ (st.h = some () → e.rval < 0 → e.lastError < 0 → e.lastError ≠ -1 →
        call estr serr st e fn args =
          .error (.umpError ("UMP Error " ++ toString e.lastError ++ ": " ++ estr e.lastError
            ++ "  From " ++ fn ++ toString args) (some e.lastError) none))
    ∧ (st.h = some () → 0 ≤ e.rval → call estr serr st e fn args = .ok e.rval) := by
  refine ⟨fun hh => ?_, fun hh hr hl => ?_, fun hh hr hl hne => ?_, fun hh hr => ?_⟩
  · simp [call, hh]
  · simp [call, hh, hr, hl]
  · simp [call, hh, hr, hne]
  · simp [call, hh, not_lt.mpr hr]

/-- Witness for C8: all four branches exercised at concrete inputs. -/
theorem call_error_taxonomy_witness :
    call estrFix serrFix closedSt okEntry "ump_ping" [] = .error (.typeError "UMP is not open.")
    ∧ call estrFix serrFix openSt osErrEntry "ump_ping" []
        = .error (.umpError ("UMP OS Error " ++ toString osErrEntry.osErrno ++ ": "
            ++ serrFix osErrEntry.osErrno) none (some osErrEntry.osErrno))
    ∧ call estrFix serrFix openSt (errEntry (-2)) "ump_ping" [3]
        = .error (.umpError ("UMP Error " ++ toString (errEntry (-2)).lastError ++ ": "
            ++ estrFix (errEntry (-2)).lastError ++ "  From " ++ "ump_ping"
            ++ toString [(3 : Int)]) (some (errEntry (-2)).lastError) none)
    ∧ call estrFix serrFix openSt okEntry "ump_ping" [] = .ok okEntry.rval :=
  ⟨(call_error_taxonomy estrFix serrFix closedSt okEntry "ump_ping" []).1 rfl,
   (call_error_taxonomy estrFix serrFix openSt osErrEntry "ump_ping" []).2.1 rfl (by decide) rfl,
   (call_error_taxonomy estrFix serrFix openSt (errEntry (-2)) "ump_ping" [3]).2.2.1
     rfl (by decide) (by decide) (by decide),
   (call_error_taxonomy estrFix serrFix openSt okEntry "ump_ping" []).2.2.2 rfl (by decide)⟩

/-- C7.  `close` is idempotent: a second `close` on an already-closed
session leaves the session state unchanged (and, since it bypasses
`UMP.call` and calls `ump_close` directly on the library, it cannot raise —
the model's `close` is a total function); after the first `close` the
poller is no longer alive and the handle is gone; every operation routed
through `UMP.call` afterwards fails with the not-open `TypeError`. -/
theorem close_idempotent (st : SessionState) :
    (close (close st).1).1 = (close st).1
    ∧ (close (close st).1).2 = none
    ∧ (close st).1.pollerAlive = false
    ∧ (close st).1.h = none
    ∧ ∀ (estr serr : Int → String) (e : ScriptEntry) (fn : String) (args : List Int),
        call estr serr (close st).1 e fn args = .error (.typeError "UMP is not open.") := by
  obtain ⟨h, t, ac, hac, pa, ps⟩ := st
  cases pa <;> simp [close, call]

/-- C5.  Behaviour of `recv_all` evaluated on concrete adapter scripts.
First conjunct (the parts of the claim the code honours): packets from
devices 3, 3, 7 followed by a timeout produce the set `{7, 3}` — duplicates
collapsed, loop ended normally by the `-3` timeout, timeout restored.
Second conjunct (the failing part): when the first receive fails with the
non-timeout code `-2`, the `except` clause swallows the error — the source
has no `else: raise` — and control falls through to `if d is None or
d > 0` with `d` never having been bound, so `recv_all` dies with
`UnboundLocalError` instead of re-raising the `UMPError`. -/
theorem recv_all_swallow :
    recv_all estrFix serrFix openSt [okEntry, pktE 3, pktE 3, pktE 7, toutE, okEntry]
      = some (.ok {some 7, some 3}, openSt, [])
    ∧ recv_all estrFix serrFix openSt [okEntry, errEntry (-2), okEntry]
      = some (.error .unboundLocalError, openSt, []) :=
  ⟨rfl, rfl⟩

/-- C6, counterexample.  The timeout-lowering `set_timeout` call sits
*before* the `try` in both `recv_all` and `list_devices`: when that very
call fails with an unexpected error (here `-2`), the stored timeout has
already been overwritten (to 0 resp. 20) and the `finally` that would
restore it is never entered, so after the operation raises the stored
timeout differs from its prior value 200. -/
theorem timeout_restore_cex :
    recv_all estrFix serrFix openSt [errEntry (-2)]
      = some (.error (.umpError ("UMP Error " ++ toString (-2 : Int) ++ ": " ++ estrFix (-2)
          ++ "  From " ++ "ump_set_timeout" ++ toString [(0 : Int)]) (some (-2)) none),
        { openSt with timeout := 0 }, [])
    ∧ ({ openSt with timeout := 0 } : SessionState).timeout ≠ openSt.timeout
    ∧ list_devices estrFix serrFix openSt 20 [errEntry (-2)]
      = some (.error (.umpError ("UMP Error " ++ toString (-2 : Int) ++ ": " ++ estrFix (-2)
          ++ "  From " ++ "ump_set_timeout" ++ toString [(20 : Int)]) (some (-2)) none),
        { openSt with timeout := 20 }, [])
    ∧ ({ openSt with timeout := 20 } : SessionState).timeout ≠ openSt.timeout := by
  refine ⟨rfl, by decide, rfl, by decide⟩

/-- C6, amended.  Provided the initial timeout-lowering transport call
succeeds, the stored timeout after `recv_all` or `list_devices` completes —
normally or by raising anywhere inside the probe/receive loop, including on
unexpected error codes — equals its value from before the operation: the
`finally` clause reassigns it before its own transport call can fail. -/
theorem timeout_restore_amended (estr serr : Int → String) (st : SessionState)
    (e : ScriptEntry) (rest : Script) (maxId : Int)
    (out : Except PyExc (Finset (Option Int)) × SessionState × Script)
    (out2 : Except PyExc (List Int) × SessionState × Script)
    (hh : st.h = some ()) (hr : 0 ≤ e.rval) :
    (recv_all estr serr st (e :: rest) = some out → out.2.1.timeout = st.timeout)
    ∧ (list_devices estr serr st maxId (e :: rest) = some out2 → out2.2.1.timeout = st.timeout) := by
  have hset0 : set_timeout estr serr 0 st e = (.ok (), { st with timeout := 0 }) := by
    simp [set_timeout, call, hh, not_lt.mpr hr]
  have hset20 : set_timeout estr serr 20 st e = (.ok (), { st with timeout := 20 }) := by
    simp [set_timeout, call, hh, not_lt.mpr hr]
  constructor
  · intro hrun
    simp only [recv_all, hset0] at hrun
    split at hrun
    · cases hrun
    · rename_i res rest2 heqloop
      split at hrun
      · cases hrun
      · rename_i e2 rest3
        split at hrun
        · rename_i ex2 st2 heq2
          have h2 := congrArg (fun p => p.2.timeout) heq2
          simp only [set_timeout_snd] at h2
          cases hrun
          exact h2.symm
        · rename_i st2 heq2
          have h2 := congrArg (fun p => p.2.timeout) heq2
          simp only [set_timeout_snd] at h2
          cases hrun
          exact h2.symm
  · intro hrun
    simp only [list_devices, hset20] at hrun
    split at hrun
    · cases hrun
    · rename_i res st2 rest2 heqloop
      split at hrun
      · cases hrun
      · rename_i e2 rest3
        split at hrun
        · rename_i ex2 st3 heq2
          have h2 := congrArg (fun p => p.2.timeout) heq2
          simp only [set_timeout_snd] at h2
          cases hrun
          exact h2.symm
        · rename_i st3 heq2
          have h2 := congrArg (fun p => p.2.timeout) heq2
          simp only [set_timeout_snd] at h2
          cases hrun
          exact h2.symm

/-- Witness for C6 (amended): a `recv_all` that immediately times out and a
`list_devices` over an empty ID range both finish with the stored timeout
back at its prior value 200. -/
theorem timeout_restore_amended_witness :
    ((Except.ok (∅ : Finset (Option Int)), openSt, ([] : Script))
        : Except PyExc (Finset (Option Int)) × SessionState × Script).2.1.timeout
      = openSt.timeout
    ∧ ((Except.ok ([] : List Int), openSt, [okEntry])
        : Except PyExc (List Int) × SessionState × Script).2.1.timeout = openSt.timeout := by
  have h := timeout_restore_amended estrFix serrFix openSt okEntry [toutE, okEntry] 0
    (.ok ∅, openSt, []) (.ok [], openSt, [okEntry]) rfl (by decide)
  exact ⟨h.1 rfl, h.2 rfl⟩

/-- With an open session and a cache hit for the device's axis count
`a ≤ 5`, `get_pos(dev, timeout=0)` consumes exactly one script entry — the
`ump_get_positions_ext` invocation itself — and returns the library's five
cached coordinates trimmed to `a` entries. -/
lemma get_pos_cache_hit (estr serr : Int → String) (st : SessionState) (dev a : Int)
    (e : ScriptEntry) (rest : Script)
    (hh : st.h = some ()) (hac : st.hasAxisCount = true)
    (hl : st.axisCounts.lookup dev = some a) (ha5 : a ≤ 5) (hr : 0 ≤ e.rval) :
    get_pos estr serr st dev (some 0) (e :: rest)
        = some (.ok ([e.px, e.py, e.pz, e.pw, e.pe].take a.toNat), st, rest)
      ∧ ([e.px, e.py, e.pz, e.pw, e.pe].take a.toNat).length = a.toNat := by
  have hcall : call estr serr st e "ump_get_positions_ext" [dev, 0] = .ok e.rval := by
    simp [call, hh, not_lt.mpr hr]
  have hax : axis_count estr serr st dev rest = some (.ok a, st, rest) := by
    simp [axis_count, hac, hl]
  constructor
  · simp [get_pos, hcall, hax]
  · simp [List.length_take]
    omega

/-- C2, counterexample.  `get_pos(1, timeout=0)` on a session whose axis
cache already holds 3 axes for device 1 returns the three cached
coordinates — but it consumes one adapter script entry: the source invokes
`self.call('ump_get_positions_ext', ...)` unconditionally, also for a zero
timeout, so the transport adapter's call count changes (by one), contrary
to the claim that it is unchanged. -/
theorem get_pos_transport_count_cex :
    get_pos estrFix serrFix cachedSt 1 (some 0) [posEntry]
      = some (.ok [10, 20, 30], cachedSt, [])
    ∧ callsUsed [posEntry] [] = 1
    ∧ (1 : Nat) ≠ 0 :=
  ⟨rfl, rfl, by decide⟩

/-- C2, amended.  For every device with a cached axis count `a` (with
`0 ≤ a ≤ 5`), `get_pos` with timeout 0 returns the coordinates the library
reports for that call — served from the library's cached snapshot, with a
zero wait budget and hence no network round-trip — trimmed to exactly `a`
axes, and it performs exactly one adapter invocation (the get-positions
primitive; in particular no separate axis-count transport call). -/
theorem get_pos_cached_trimmed (estr serr : Int → String) (st : SessionState) (dev a : Int)
    (e : ScriptEntry) (rest : Script)
    (hh : st.h = some ()) (hac : st.hasAxisCount = true)
    (hl : st.axisCounts.lookup dev = some a) (ha0 : 0 ≤ a) (ha5 : a ≤ 5) (hr : 0 ≤ e.rval) :
    get_pos estr serr st dev (some 0) (e :: rest)
        = some (.ok ([e.px, e.py, e.pz, e.pw, e.pe].take a.toNat), st, rest)
      ∧ ([e.px, e.py, e.pz, e.pw, e.pe].take a.toNat).length = a.toNat :=
  get_pos_cache_hit estr serr st dev a e rest hh hac hl ha5 hr

/-- Witness for C2 (amended): device 1 with cached axis count 3 and the
library's snapshot reading `(10, 20, 30, 40, 50)`. -/
theorem get_pos_cached_trimmed_witness :
    get_pos estrFix serrFix cachedSt 1 (some 0) [posEntry]
        = some (.ok ([posEntry.px, posEntry.py, posEntry.pz, posEntry.pw, posEntry.pe].take
            (3 : Int).toNat), cachedSt, [])
      ∧ ([posEntry.px, posEntry.py, posEntry.pz, posEntry.pw, posEntry.pe].take
          (3 : Int).toNat).length = (3 : Int).toNat :=
  get_pos_cached_trimmed estrFix serrFix cachedSt 1 3 posEntry [] rfl rfl rfl
    (by decide) (by decide) (by decide)

/-- Every device ID in the set built by the `recv_all` receive loop passes
the `d is None or d > 0` guard, provided the starting set does. -/
lemma recvAllLoop_mem (estr serr : Int → String) (st : SessionState) :
    ∀ (script : Script) (dBind : Option (Option Int)) (devs0 res : Finset (Option Int))
      (rest' : Script),
      (∀ v ∈ devs0, addCond v = true) →
      recvAllLoop estr serr st dBind devs0 script = some (.ok res, rest') →
      ∀ v ∈ res, addCond v = true := by
  intro script
  induction script with
  | nil =>
    intro dBind devs0 res rest' hinv hrun
    cases hrun
  | cons e rest ih =>
    intro dBind devs0 res rest' hinv hrun
    simp only [recvAllLoop] at hrun
    split at hrun
    · rename_i d heq
      by_cases hd : addCond d
      · rw [if_pos hd] at hrun
        refine ih _ _ _ _ (fun v hv => ?_) hrun
        rcases Finset.mem_insert.1 hv with rfl | hv
        · exact hd
        · exact hinv v hv
      · rw [if_neg hd] at hrun
        exact ih _ _ _ _ hinv hrun
    · rename_i msg errno os heq
      split at hrun
      · injection hrun with hrun1
        injection hrun1 with hres hrest
        injection hres with hres
        subst hres
        exact hinv
      · split at hrun
        · simp at hrun
        · rename_i d
          by_cases hd : addCond d
          · rw [if_pos hd] at hrun
            refine ih _ _ _ _ (fun v hv => ?_) hrun
            rcases Finset.mem_insert.1 hv with rfl | hv
            · exact hd
            · exact hinv v hv
          · rw [if_neg hd] at hrun
            exact ih _ _ _ _ hinv hrun
    · rename_i ex heq hne
      simp at hrun

/-- C9.  Whenever `recv_all` returns normally, device ID 0 is not in the
returned set: the guard `if d is None or d > 0` admits only a `None` value
or an ID strictly greater than 0, so packets attributed to device 0 (or to
negative IDs) are silently dropped. -/
theorem recv_all_positive_ids (estr serr : Int → String) (st : SessionState) (script : Script)
    (devs : Finset (Option Int)) (st' : SessionState) (rest : Script)
    (hrun : recv_all estr serr st script = some (.ok devs, st', rest)) :
    some 0 ∉ devs ∧ ∀ v ∈ devs, v = none ∨ ∃ k, v = some k ∧ 0 < k := by
  have hmem : ∀ v ∈ devs, addCond v = true := by
    rcases script with _ | ⟨e, rest0⟩
    · cases hrun
    · simp only [recv_all] at hrun
      split at hrun
      · cases hrun
      · split at hrun
        · cases hrun
        · rename_i res rest2 heqloop
          split at hrun
          · cases hrun
          · rename_i e2 rest3
            split at hrun
            · cases hrun
            · injection hrun with hrun1
              injection hrun1 with hres hrun2
              subst hres
              exact recvAllLoop_mem estr serr _ rest0 none ∅ devs _ (by simp) heqloop
  constructor
  · intro h0
    have := hmem _ h0
    simp [addCond] at this
  · intro v hv
    have hc := hmem v hv
    rcases v with _ | k
    · exact Or.inl rfl
    · exact Or.inr ⟨k, rfl, by simpa [addCond] using hc⟩

/-- Witness for C9: a run receiving a device-0 packet and a device-3 packet
ends with `{3}` — the device-0 packet was dropped. -/
theorem recv_all_positive_ids_witness :
    some 0 ∉ ({some 3} : Finset (Option Int))
    ∧ ∀ v ∈ ({some 3} : Finset (Option Int)), v = none ∨ ∃ k, v = some k ∧ 0 < k :=
  recv_all_positive_ids estrFix serrFix openSt [okEntry, pktE 0, pktE 3, toutE, okEntry]
    {some 3} openSt [] rfl

/-- C10, counterexample.  On a library without `ump_get_axis_count_ext`,
constructing a device handle with the override `n_axes = 3` does write 3
into the session's shared axis-count cache, but `axis_count` returns the
fixed default 4 *before* consulting that cache, so the subsequent query
does not use the override (it yields 4, not 3). -/
theorem axis_override_cex :
    (deviceInitAxisOverride noAxisSt 1 (some 3)).axisCounts.lookup 1 = some 3
    ∧ axis_count estrFix serrFix (deviceInitAxisOverride noAxisSt 1 (some 3)) 1 []
        = some (.ok 4, deviceInitAxisOverride noAxisSt 1 (some 3), [])
    ∧ (4 : Int) ≠ 3 :=
  ⟨rfl, rfl, by decide⟩

/-- C10, amended.  A non-null `n_axes` override is written into the
session's shared axis-count cache, and the transport layer is never
queried for that device's axis count afterwards (no script entry is
consumed in either case).  When the library supports axis-count queries,
every subsequent `axis_count` returns the override and `get_pos` trims to
it; when the library lacks the query function, `axis_count` returns the
fixed default 4 and the override is ignored. -/
theorem axis_override_amended (estr serr : Int → String) (st : SessionState)
    (devid n : Int) (script : Script) (e : ScriptEntry) (rest : Script) :
    (deviceInitAxisOverride st devid (some n)).axisCounts.lookup devid = some n
    ∧ (st.hasAxisCount = true →
        axis_count estr serr (deviceInitAxisOverride st devid (some n)) devid script
          = some (.ok n, deviceInitAxisOverride st devid (some n), script))
    ∧ (st.hasAxisCount = false →
        axis_count estr serr (deviceInitAxisOverride st devid (some n)) devid script
          = some (.ok 4, deviceInitAxisOverride st devid (some n), script))
    ∧ (st.hasAxisCount = true → st.h = some () → 0 ≤ e.rval → n ≤ 5 →
        get_pos estr serr (deviceInitAxisOverride st devid (some n)) devid (some 0) (e :: rest)
            = some (.ok ([e.px, e.py, e.pz, e.pw, e.pe].take n.toNat),
                deviceInitAxisOverride st devid (some n), rest)
          ∧ ([e.px, e.py, e.pz, e.pw, e.pe].take n.toNat).length = n.toNat) := by
  have hlook : (deviceInitAxisOverride st devid (some n)).axisCounts.lookup devid = some n := by
    simp [deviceInitAxisOverride, List.lookup]
  refine ⟨hlook, fun hac => ?_, fun hac => ?_, fun hac hh hr h5 => ?_⟩
  · simp [axis_count, deviceInitAxisOverride, hac, List.lookup]
  · simp [axis_count, deviceInitAxisOverride, hac]
  · exact get_pos_cache_hit estr serr _ devid n e rest
      (by simpa [deviceInitAxisOverride] using hh)
      (by simpa [deviceInitAxisOverride] using hac) hlook h5 hr

/-- Witness for C10 (amended): override 3 for device 2, exercised on a
library with axis-count support (cache hit, trimmed positions) and on one
without (fixed default 4). -/
theorem axis_override_amended_witness :
    (deviceInitAxisOverride openSt 2 (some 3)).axisCounts.lookup 2 = some 3
    ∧ axis_count estrFix serrFix (deviceInitAxisOverride openSt 2 (some 3)) 2 []
        = some (.ok 3, deviceInitAxisOverride openSt 2 (some 3), [])
    ∧ axis_count estrFix serrFix (deviceInitAxisOverride noAxisSt 2 (some 3)) 2 []
        = some (.ok 4, deviceInitAxisOverride noAxisSt 2 (some 3), [])
    ∧ (get_pos estrFix serrFix (deviceInitAxisOverride openSt 2 (some 3)) 2 (some 0) [posEntry]
          = some (.ok ([posEntry.px, posEntry.py, posEntry.pz, posEntry.pw, posEntry.pe].take
              (3 : Int).toNat), deviceInitAxisOverride openSt 2 (some 3), [])
        ∧ ([posEntry.px, posEntry.py, posEntry.pz, posEntry.pw, posEntry.pe].take
            (3 : Int).toNat).length = (3 : Int).toNat) := by
  have h1 := axis_override_amended estrFix serrFix openSt 2 3 [] posEntry []
  have h2 := axis_override_amended estrFix serrFix noAxisSt 2 3 [] posEntry []
  exact ⟨h1.1, h1.2.1 rfl, h2.2.2.1 rfl, h1.2.2.2 rfl rfl (by decide) (by decide)⟩

/-- In a single poller iteration dispatched against the empty `last_pos`
dictionary, every invocation carries `old_pos = None`. -/
lemma pollIterDevices_oldPos (g : Int → List Int) (cbs : List (Int × List String)) :
    ∀ c ∈ pollIterDevices g [] cbs, c.oldPos = none := by
  induction cbs with
  | nil => simp [pollIterDevices]
  | cons p restCbs ih =>
    rcases p with ⟨dev, cblist⟩
    intro c hc
    simp only [pollIterDevices] at hc
    rcases List.mem_append.1 hc with hc | hc
    · split at hc
      · rcases List.mem_map.1 hc with ⟨cb, _, rfl⟩
        rfl
      · cases hc
    · exact ih c hc

/-- Since `PollThread.run` never assigns to `last_pos`, every invocation of
every whole run carries `old_pos = None`. -/
lemma pollRun_oldPos (cbs : List (Int × List String)) (iters : List (Int → List Int)) :
    ∀ c ∈ pollRun cbs iters, c.oldPos = none := by
  unfold pollRun
  induction iters with
  | nil => simp [pollRunAux]
  | cons g gs ih =>
    intro c hc
    simp only [pollRunAux] at hc
    rcases List.mem_append.1 hc with hc | hc
    · exact pollIterDevices_oldPos g cbs c hc
    · exact ih c hc

/-- C1.  The poller's dispatch against the claim's scenario: device 1 moves
from `[0,0,0]` to `[0,0,5]` between two iterations while device 2 stays at
`[7,7,7]`.  Because `run` never writes `last_pos`, `old_pos` is `None` on
every iteration, so (first conjunct) the observers fire on *both*
iterations — four invocations, all with `old_pos = None`; (second conjunct)
the single invocation `("obsA", 1, [0,0,5], [0,0,0])` the claim predicts
never happens; (third conjunct) the observer registered for the unchanged
device 2 fires twice rather than never; (fourth conjunct) in general no
invocation of any run ever carries a previous position. -/
theorem poller_stale_last_pos :
    pollRun [(1, ["obsA"]), (2, ["obsB"])] [pollPos1, pollPos2]
      = [⟨"obsA", 1, [0, 0, 0], none⟩, ⟨"obsB", 2, [7, 7, 7], none⟩,
         ⟨"obsA", 1, [0, 0, 5], none⟩, ⟨"obsB", 2, [7, 7, 7], none⟩]
    ∧ (pollRun [(1, ["obsA"]), (2, ["obsB"])] [pollPos1, pollPos2]).count
        ⟨"obsA", 1, [0, 0, 5], some [0, 0, 0]⟩ = 0
    ∧ (pollRun [(1, ["obsA"]), (2, ["obsB"])] [pollPos1, pollPos2]).countP
        (fun c => c.dev == 2) = 2
    ∧ ∀ (cbs : List (Int × List String)) (iters : List (Int → List Int)) (c : PollCall),
        c ∈ pollRun cbs iters → c.oldPos = none :=
  ⟨rfl, rfl, rfl, fun cbs iters c hc => pollRun_oldPos cbs iters c hc⟩

/-- Witness for C1: the first invocation of the example run indeed carries
no previous position. -/
theorem poller_stale_last_pos_witness : (⟨"obsA", 1, [0, 0, 0], none⟩ : PollCall).oldPos = none :=
  poller_stale_last_pos.2.2.2 [(1, ["obsA"]), (2, ["obsB"])] [pollPos1, pollPos2]
    ⟨"obsA", 1, [0, 0, 0], none⟩ (by decide)

end Sensapex
